import Mathlib

/-!
Verification of the graduation workflow of the turin_grad_backend repository.

The development shallowly embeds:
  * the standalone graduation helpers of `src/test_graduation_system.py`
    (`is_eligible_for_graduation`, `validate_graduation_data`), which are the
    repository's mirror of the `User` model methods of the same names;
  * the admin route handlers of `src/app/admin/routes.py`
    (`confirm_graduation`, `revert_graduation`, `update_graduation_info`,
    `assign_students_to_teacher`, `get_graduating_students`).

The real `User` model (with the `student_status`, `degree_level`,
`student_type` columns and the two graduation methods) lives in
`app/database.py`, which is not part of the source tree given here; those
parts are modelled from the specification, which coincides with the mirror
implementation in `src/test_graduation_system.py`.

Dates are modelled as (year, month, day) triples compared lexicographically,
which agrees with Python `datetime` comparison at day granularity (the only
granularity the code uses: the cutoffs compared against are midnights).
Database commits are modelled as always succeeding; the committed state is
the `Except.ok` payload, an `Except.error` result leaves the committed state
untouched (every error return in the handlers happens before any commit).
-/

namespace TurinGrad

/-- `role` column of the users table (enum in `src/app/models/__init__.py`). -/
inductive Role
  | admin
  | teacher
  | student
deriving DecidableEq, Repr

/-- Degree level of a student: bachelor, master, phd or dsc. -/
inductive DegreeLevel
  | bachelor
  | master
  | phd
  | dsc
deriving DecidableEq, Repr

/-- Student type: regular, free applicant or external. -/
inductive StudentType
  | regular
  | free_applicant
  | external
deriving DecidableEq, Repr

/-- Student status: `current` or `graduate` (the spec's two-valued domain). -/
inductive StudentStatus
  | current
  | graduate
deriving DecidableEq, Repr

/-- A calendar date (year, month, day); stands for a Python `datetime` at the
day granularity used by the graduation code. -/
structure Date where
  year : Int
  month : Nat
  day : Nat
deriving DecidableEq, Repr

/-- Lexicographic `≤` on dates, mirroring Python `datetime.__le__`. -/
def dateLe (a b : Date) : Bool :=
  if a.year ≠ b.year then decide (a.year < b.year)
  else if a.month ≠ b.month then decide (a.month < b.month)
  else decide (a.day ≤ b.day)

/-- Lexicographic `<` on dates, mirroring Python `datetime.__lt__`. -/
def dateLt (a b : Date) : Bool :=
  if a.year ≠ b.year then decide (a.year < b.year)
  else if a.month ≠ b.month then decide (a.month < b.month)
  else decide (a.day < b.day)

/-- `datetime(graduation_year, 6, 1)`: June 1 of the given year. -/
def juneFirst (y : Int) : Date := ⟨y, 6, 1⟩

/-- Current academic year: the calendar year, minus one before June
(`src/app/admin/routes.py` lines 371-374, `src/test_graduation_system.py`
lines 17-20). -/
def currentAcademicYear (now : Date) : Int :=
  if now.month < 6 then now.year - 1 else now.year

/-- The academic fields of a student record used by the graduation helpers
(the shape of the student dictionaries in `src/test_graduation_system.py`). -/
structure GradData where
  admission_year : Int
  graduation_year : Int
  degree_level : DegreeLevel
  student_type : StudentType
  student_status : StudentStatus
deriving DecidableEq, Repr

/-- `is_eligible_for_graduation` from `src/test_graduation_system.py`
lines 79-84: false for graduates, otherwise true iff the current date is on
or after June 1 of the graduation year. -/
def is_eligible_for_graduation (s : GradData) (now : Date) : Bool :=
  if s.student_status = StudentStatus.graduate then false
  else dateLe (juneFirst s.graduation_year) now

/-- `validate_graduation_data` from `src/test_graduation_system.py`
lines 90-105: degree-duration check (an if/elif chain) followed by the
student-type check, collecting human-readable messages. -/
def validate_graduation_data (s : GradData) : List String :=
  let duration := s.graduation_year - s.admission_year
  let durationErrors : List String :=
    if s.degree_level = DegreeLevel.bachelor ∧ duration ≠ 4 ∧ duration ≠ 5 then
      ["Bachelor degree duration should be 4-5 years"]
    else if s.degree_level = DegreeLevel.master ∧ duration ≠ 2 ∧ duration ≠ 3 then
      ["Master degree duration should be 2-3 years"]
    else if s.degree_level = DegreeLevel.phd ∧ duration ≠ 3 ∧ duration ≠ 4 ∧ duration ≠ 5 then
      ["PhD duration should be 3-5 years"]
    else []
  let typeErrors : List String :=
    if (s.degree_level = DegreeLevel.bachelor ∨ s.degree_level = DegreeLevel.master) ∧
        s.student_type ≠ StudentType.regular then
      ["Bachelor and Master students must be regular type"]
    else []
  durationErrors ++ typeErrors

/-- A row of the `users` table, restricted to the columns the graduation
workflow reads or writes (`src/app/models/__init__.py` plus the academic
columns the routes use).  `graduation_year` and `admission_year` are nullable
in the schema, hence `Option`; `degree_level`, `student_type` and
`student_status` are modelled from the spec's enum domains (their column
declarations live in the missing `app/database.py`). -/
structure User where
  id : String
  first_name : String
  last_name : String
  email : String
  role : Role
  faculty : String
  direction : String
  admission_year : Option Int
  graduation_year : Option Int
  degree_level : DegreeLevel
  student_type : StudentType
  student_status : StudentStatus
  updated_at : Date
deriving DecidableEq, Repr

/-- Modelled from the spec: the `User.is_eligible_for_graduation` method is
declared on the model in the missing `app/database.py` (its callers are in
`src/app/admin/routes.py`).  The spec defines it as: true iff
`student_status == current` and the current date is on or after June 1 of
`graduation_year`; the mirror in `src/test_graduation_system.py` agrees on
the two-valued status domain.  A null `graduation_year` makes the Python
method raise (`datetime(None, 6, 1)`), modelled as `none`. -/
def User.is_eligible_for_graduation (u : User) (now : Date) : Option Bool :=
  match u.graduation_year with
  | none => none
  | some gy =>
    some (decide (u.student_status = StudentStatus.current) && dateLe (juneFirst gy) now)

/-- Modelled from the spec: the `User.validate_graduation_data` method of the
missing `app/database.py`, whose rules the spec states and
`src/test_graduation_system.py` mirrors.  Null years make the Python method
raise (`None` arithmetic), modelled as `none`. -/
def User.validate_graduation_data (u : User) : Option (List String) :=
  match u.admission_year, u.graduation_year with
  | some ay, some gy =>
    some (TurinGrad.validate_graduation_data
      ⟨ay, gy, u.degree_level, u.student_type, u.student_status⟩)
  | _, _ => none

/-- A row of the `activity_logs` table (columns the handlers set; the
request-metadata columns `ip_address` / `user_agent` are outside the scope of
the claims). -/
structure ActivityLog where
  user_id : String
  action : String
  target_id : String
  target_type : String
  details : String
deriving DecidableEq, Repr

/-- A row of the `notifications` table (columns the handlers set). -/
structure Notification where
  user_id : String
  title : String
  message : String
  type : String
deriving DecidableEq, Repr

/-- A row of the `teacher_students` table. -/
structure TeacherStudent where
  teacher_id : String
  student_id : String
  assigned_at : Date
  assigned_by : String
deriving DecidableEq, Repr

/-- The committed database state the graduation and assignment handlers read
and write. -/
structure DB where
  users : List User
  assignments : List TeacherStudent
  logs : List ActivityLog
  notifs : List Notification
deriving DecidableEq, Repr

/-- Error codes returned by the handlers (`error_response` calls in
`src/app/admin/routes.py`).  `EXCEPTION` stands for an unhandled Python
exception (a 500 outside the clean error taxonomy); `DATABASE_ERROR` is the
commit-failure branch, unreachable here because commits are modelled as
succeeding. -/
inductive ErrCode
  | STUDENT_NOT_FOUND
  | NOT_ELIGIBLE
  | ALREADY_GRADUATED
  | VALIDATION_ERROR
  | NOT_GRADUATED
  | STUDENT_GRADUATED
  | TEACHER_NOT_FOUND
  | INVALID_STUDENT_IDS
  | DATABASE_ERROR
  | EXCEPTION
deriving DecidableEq, Repr

/-- `User.query.filter_by(id=uid, role=r).first()`: the first user with the
given id and role. -/
def findUserWithRole (users : List User) (uid : String) (r : Role) : Option User :=
  users.find? (fun u => decide (u.id = uid ∧ u.role = r))

/-- The student lookup every graduation handler starts with. -/
def findStudent (db : DB) (sid : String) : Option User :=
  findUserWithRole db.users sid Role.student

/-- ORM mutation of the row with the given id: apply `f` to it, leave every
other row unchanged. -/
def updateUser (users : List User) (uid : String) (f : User → User) : List User :=
  users.map (fun u => if u.id = uid then f u else u)

/-- `confirm_graduation` (`src/app/admin/routes.py` lines 429-478): look the
student up, check eligibility, then the already-graduated guard, then
validation; on success set `student_status = graduate`, update `updated_at`,
append one `STUDENT_GRADUATED` activity-log row and one success notification. -/
def confirm_graduation (db : DB) (admin_id sid : String) (now utcNow : Date) :
    Except ErrCode DB :=
  match findStudent db sid with
  | none => Except.error ErrCode.STUDENT_NOT_FOUND
  | some student =>
    match User.is_eligible_for_graduation student now with
    | none => Except.error ErrCode.EXCEPTION
    | some eligible =>
      if eligible = false then Except.error ErrCode.NOT_ELIGIBLE
      else if student.student_status = StudentStatus.graduate then
        Except.error ErrCode.ALREADY_GRADUATED
      else
        match User.validate_graduation_data student with
        | none => Except.error ErrCode.EXCEPTION
        | some validation_errors =>
          if validation_errors ≠ [] then Except.error ErrCode.VALIDATION_ERROR
          else
            Except.ok { db with
              users := updateUser db.users sid (fun u =>
                { u with student_status := StudentStatus.graduate, updated_at := utcNow }),
              logs := db.logs ++ [⟨admin_id, "STUDENT_GRADUATED", student.id, "User",
                "Подтвержден выпуск студента " ++ student.first_name ++ " "
                  ++ student.last_name⟩],
              notifs := db.notifs ++ [⟨student.id, "Поздравляем с выпуском!",
                "Ваш выпуск был подтвержден администратором. Поздравляем с завершением обучения!",
                "success"⟩] }

/-- `revert_graduation` (`src/app/admin/routes.py` lines 480-566): guard
`student_status == graduate`, then set it back to `current`, log
`STUDENT_GRADUATION_REVERTED` and notify. -/
def revert_graduation (db : DB) (admin_id sid : String) (utcNow : Date) :
    Except ErrCode DB :=
  match findStudent db sid with
  | none => Except.error ErrCode.STUDENT_NOT_FOUND
  | some student =>
    if student.student_status ≠ StudentStatus.graduate then
      Except.error ErrCode.NOT_GRADUATED
    else
      Except.ok { db with
        users := updateUser db.users sid (fun u =>
          { u with student_status := StudentStatus.current, updated_at := utcNow }),
        logs := db.logs ++ [⟨admin_id, "STUDENT_GRADUATION_REVERTED", student.id, "User",
          "Отменен выпуск студента " ++ student.first_name ++ " " ++ student.last_name⟩],
        notifs := db.notifs ++ [⟨student.id, "Статус выпуска изменен",
          "Ваш статус выпуска был изменен администратором.", "info"⟩] }

/-- Request body of `PUT /api/admin/students/{id}/graduation-info`
(`admissionYear`, `graduationYear`, `degreeLevel` required; `studentType`,
`faculty`, `direction` optional). -/
structure UpdateData where
  admissionYear : Int
  graduationYear : Int
  degreeLevel : DegreeLevel
  studentType : Option StudentType
  faculty : Option String
  direction : Option String
deriving DecidableEq, Repr

/-- The field updates of `update_graduation_info`
(`src/app/admin/routes.py` lines 642-656): set the three required academic
fields; set `student_type` from the body when present, else force `regular`
for bachelor/master; set faculty/direction when present. -/
def applyGraduationInfo (d : UpdateData) (u : User) : User :=
  let u := { u with
    admission_year := some d.admissionYear,
    graduation_year := some d.graduationYear,
    degree_level := d.degreeLevel }
  let u :=
    match d.studentType with
    | some t => { u with student_type := t }
    | none =>
      if d.degreeLevel = DegreeLevel.bachelor ∨ d.degreeLevel = DegreeLevel.master then
        { u with student_type := StudentType.regular }
      else u
  let u := match d.faculty with
    | some f => { u with faculty := f }
    | none => u
  match d.direction with
  | some dir => { u with direction := dir }
  | none => u

/-- Detail string of the `STUDENT_GRADUATION_INFO_UPDATED` log row
(`src/app/admin/routes.py` lines 669-678). -/
def updateDetails (student : User) (d : UpdateData) : String :=
  "Обновлена информация об обучении студента " ++ student.first_name ++ " "
    ++ student.last_name ++ ". Изменения: " ++
    (if student.graduation_year = some d.graduationYear then "данные обновлены"
     else "год выпуска: " ++
       (match student.graduation_year with
        | none => "None"
        | some y => toString y) ++ " → " ++ toString d.graduationYear)

/-- `update_graduation_info` (`src/app/admin/routes.py` lines 567-697):
reject once graduated; otherwise apply the field updates, re-run
`validate_graduation_data`, and reject the whole update before any commit if
validation fails; on success commit the updated row, log and notify.  The
`Except.error` cases leave the committed state untouched: the handler returns
before `db.session.commit()`, and the request-scoped session is rolled back. -/
def update_graduation_info (db : DB) (admin_id sid : String) (d : UpdateData)
    (utcNow : Date) : Except ErrCode DB :=
  match findStudent db sid with
  | none => Except.error ErrCode.STUDENT_NOT_FOUND
  | some student =>
    if student.student_status = StudentStatus.graduate then
      Except.error ErrCode.STUDENT_GRADUATED
    else
      match User.validate_graduation_data (applyGraduationInfo d student) with
      | none => Except.error ErrCode.EXCEPTION
      | some validation_errors =>
        if validation_errors ≠ [] then Except.error ErrCode.VALIDATION_ERROR
        else
          Except.ok { db with
            users := updateUser db.users sid (fun u =>
              { applyGraduationInfo d u with updated_at := utcNow }),
            logs := db.logs ++ [⟨admin_id, "STUDENT_GRADUATION_INFO_UPDATED", student.id,
              "User", updateDetails student d⟩],
            notifs := db.notifs ++ [⟨student.id, "Обновлена информация об обучении",
              "Администратор обновил информацию о вашем обучении.", "info"⟩] }

/-- `TeacherStudent.query.filter_by(teacher_id=..., student_id=...).first()`
as an existence test (the session autoflushes, so rows added earlier in the
same batch are visible). -/
def hasAssignment (asg : List TeacherStudent) (tid sid : String) : Bool :=
  asg.any (fun t => decide (t.teacher_id = tid ∧ t.student_id = sid))

/-- The per-id loop of `assign_students_to_teacher`
(`src/app/admin/routes.py` lines 2564-2588), threading the assignment rows
and the `assigned` / `skipped` / `errors` accumulators. -/
def assignLoop (users : List User) (tid aid : String) (now : Date) :
    List String → List TeacherStudent → Nat → Nat → List String →
    List TeacherStudent × Nat × Nat × List String
  | [], asg, a, s, e => (asg, a, s, e)
  | sid :: rest, asg, a, s, e =>
    match findUserWithRole users sid Role.student with
    | none =>
      assignLoop users tid aid now rest asg a s (e ++ ["Student " ++ sid ++ " not found"])
    | some _ =>
      if hasAssignment asg tid sid then
        assignLoop users tid aid now rest asg a (s + 1) e
      else
        assignLoop users tid aid now rest (asg ++ [⟨tid, sid, now, aid⟩]) (a + 1) s e

/-- Result counters returned by the batch assignment endpoint. -/
structure AssignResult where
  assigned : Nat
  skipped : Nat
  errors : List String
deriving DecidableEq, Repr

/-- `assign_students_to_teacher` (`src/app/admin/routes.py` lines 2486-2610):
look the teacher up, reject an empty id list, run the per-id loop, and when
anything was assigned append one `STUDENTS_ASSIGNED_TO_TEACHER` log row. -/
def assign_students_to_teacher (db : DB) (admin_id tid : String)
    (student_ids : List String) (now : Date) : Except ErrCode (DB × AssignResult) :=
  match findUserWithRole db.users tid Role.teacher with
  | none => Except.error ErrCode.TEACHER_NOT_FOUND
  | some teacher =>
    if student_ids = [] then Except.error ErrCode.INVALID_STUDENT_IDS
    else
      match assignLoop db.users tid admin_id now student_ids db.assignments 0 0 [] with
      | (asg, assigned_count, skipped_count, errors) =>
        let logs :=
          if assigned_count > 0 then
            db.logs ++ [⟨admin_id, "STUDENTS_ASSIGNED_TO_TEACHER", tid, "user",
              "Assigned " ++ toString assigned_count ++ " students to teacher "
                ++ teacher.email⟩]
          else db.logs
        Except.ok ({ db with assignments := asg, logs := logs },
          ⟨assigned_count, skipped_count, errors⟩)

/-- String value of the `degree_level` enum column, compared against the
`degreeLevel` query parameter. -/
def DegreeLevel.str : DegreeLevel → String
  | DegreeLevel.bachelor => "bachelor"
  | DegreeLevel.master => "master"
  | DegreeLevel.phd => "phd"
  | DegreeLevel.dsc => "dsc"

/-- The row set of `GET /api/admin/graduating-students`
(`src/app/admin/routes.py` lines 350-381): current students with a non-null
graduation year, optionally filtered by faculty and degree level (a missing
or empty query parameter — falsy in Python — skips its filter), restricted to
`graduation_year ≤ current academic year + 1`.  Ordering and pagination are
presentation-level and not modelled; the claims concern which rows are
returned. -/
def get_graduating_students (db : DB) (facultyArg degreeArg : Option String)
    (now : Date) : List User :=
  let q := db.users.filter (fun u =>
    decide (u.role = Role.student ∧ u.student_status = StudentStatus.current ∧
      u.graduation_year ≠ none))
  let q := match facultyArg with
    | some f => if f ≠ "" then q.filter (fun (u : User) => decide (u.faculty = f)) else q
    | none => q
  let q := match degreeArg with
    | some dl =>
      if dl ≠ "" then q.filter (fun (u : User) => decide (DegreeLevel.str u.degree_level = dl))
      else q
    | none => q
  q.filter (fun u =>
    match u.graduation_year with
    | some gy => decide (gy ≤ currentAcademicYear now + 1)
    | none => false)

/-! ## Sample data (used by witness theorems and counterexamples) -/

/-- A current bachelor student (the shape of the spec's end-to-end example:
admitted 2021, graduating 2025, regular, current). -/
def sampleStudent : User :=
  ⟨"s1", "Aziz", "Rahmonov", "aziz@example.com", Role.student,
   "Факультет информатики", "Программная инженерия",
   some 2021, some 2025, DegreeLevel.bachelor, StudentType.regular,
   StudentStatus.current, ⟨2024, 1, 1⟩⟩

/-- An already graduated bachelor student. -/
def sampleGraduate : User :=
  ⟨"s2", "Sarvar", "Karimov", "sarvar@example.com", Role.student,
   "Факультет информатики", "Программная инженерия",
   some 2019, some 2023, DegreeLevel.bachelor, StudentType.regular,
   StudentStatus.graduate, ⟨2024, 1, 1⟩⟩

/-- A teacher account. -/
def sampleTeacher : User :=
  ⟨"t1", "Nodira", "Abdullayeva", "nodira@example.com", Role.teacher,
   "", "", none, none, DegreeLevel.bachelor, StudentType.regular,
   StudentStatus.current, ⟨2024, 1, 1⟩⟩

/-- A small committed database state holding the three sample users. -/
def sampleDB : DB := ⟨[sampleStudent, sampleGraduate, sampleTeacher], [], [], []⟩

/-- The state after a first, successful `confirm_graduation` on `"s1"`
(evaluated on 2025-07-01). -/
def c3DB1 : DB :=
  (confirm_graduation sampleDB "a1" "s1" ⟨2025, 7, 1⟩ ⟨2025, 7, 1⟩).toOption.getD sampleDB

/-- The state after a successful `confirm_graduation` on `"s1"` (evaluated on
2025-07-01), used to exercise the confirm-then-revert round trip. -/
def c5DB1 : DB :=
  (confirm_graduation sampleDB "a1" "s1" ⟨2025, 7, 1⟩ ⟨2025, 7, 1⟩).toOption.getD sampleDB

/-! ## Helper lemmas -/

lemma dateLe_eq_false_of_dateLt (a b : Date) (h : dateLt a b = true) :
    dateLe b a = false := by
  unfold dateLt at h
  unfold dateLe
  by_cases h1 : a.year = b.year
  · by_cases h2 : a.month = b.month
    · simp [h1, h2] at h ⊢
      omega
    · simp [h1, h2, Ne.symm h2] at h ⊢
      omega
  · simp [h1, Ne.symm h1] at h ⊢
    omega

/-- Looking a user up after an ORM mutation that preserves `id` and `role`
finds the mutated row. -/
lemma findUserWithRole_updateUser (users : List User) (uid : String) (r : Role)
    (f : User → User) (hid : ∀ u, (f u).id = u.id) (hrole : ∀ u, (f u).role = u.role) :
    findUserWithRole (updateUser users uid f) uid r
      = (findUserWithRole users uid r).map f := by
  unfold findUserWithRole updateUser
  rw [List.find?_map]
  have hp : ((fun u => decide (u.id = uid ∧ u.role = r)) ∘ fun u => if u.id = uid then f u else u)
      = fun u => decide (u.id = uid ∧ u.role = r) := by
    funext u
    by_cases hu : u.id = uid
    · simp [hu, hid, hrole]
    · simp [hu]
  rw [hp]
  cases hfind : List.find? (fun u => decide (u.id = uid ∧ u.role = r)) users with
  | none => rfl
  | some x =>
    have hx := List.find?_some hfind
    simp only [decide_eq_true_eq] at hx
    simp [Option.map, hx.1]

/-- Anything `confirm_graduation` accepts has the shape its success branch
writes: the student was found, current, past the June-1 cutoff, with clean
validation data, and the output state is the input with the one row marked
graduated plus one log row and one notification. -/
lemma confirm_graduation_ok_elim
    (db : DB) (admin sid : String) (now utc : Date) (db1 : DB)
    (h : confirm_graduation db admin sid now utc = Except.ok db1) :
    ∃ s gy ay,
      findStudent db sid = some s ∧
      s.graduation_year = some gy ∧ s.admission_year = some ay ∧
      s.student_status = StudentStatus.current ∧
      dateLe (juneFirst gy) now = true ∧
      validate_graduation_data ⟨ay, gy, s.degree_level, s.student_type, s.student_status⟩ = [] ∧
      db1 = { db with
        users := updateUser db.users sid (fun u =>
          { u with student_status := StudentStatus.graduate, updated_at := utc }),
        logs := db.logs ++ [⟨admin, "STUDENT_GRADUATED", s.id, "User",
          "Подтвержден выпуск студента " ++ s.first_name ++ " " ++ s.last_name⟩],
        notifs := db.notifs ++ [⟨s.id, "Поздравляем с выпуском!",
          "Ваш выпуск был подтвержден администратором. Поздравляем с завершением обучения!",
          "success"⟩] } := by
  unfold confirm_graduation at h
  split at h
  · simp at h
  · rename_i s hf
    split at h
    · simp at h
    · rename_i b helig
      split at h
      · simp at h
      · rename_i hb
        split at h
        · simp at h
        · rename_i hg
          split at h
          · simp at h
          · rename_i errs hval
            split at h
            · simp at h
            · rename_i hne
              cases h
              have herrs : errs = [] := by
                by_contra hc
                exact hne hc
              unfold User.is_eligible_for_graduation at helig
              cases hgy : s.graduation_year with
              | none => rw [hgy] at helig; simp at helig
              | some gy =>
                rw [hgy] at helig
                simp only [Option.some.injEq] at helig
                have hb' : b = true := by
                  cases b
                  · exact absurd rfl hb
                  · rfl
                rw [hb'] at helig
                rw [Bool.and_eq_true] at helig
                have hcur : s.student_status = StudentStatus.current := by
                  have := helig.1
                  simpa using this
                have hdate : dateLe (juneFirst gy) now = true := helig.2
                unfold User.validate_graduation_data at hval
                cases hay : s.admission_year with
                | none => rw [hay, hgy] at hval; simp at hval
                | some ay =>
                  rw [hay, hgy] at hval
                  simp only [Option.some.injEq] at hval
                  refine ⟨s, gy, ay, hf, hgy, hay, hcur, hdate, ?_, rfl⟩
                  rw [hval, herrs]

/-- The academic fields `applyGraduationInfo` always writes, independently of
the optional body fields. -/
lemma applyGraduationInfo_fields (d : UpdateData) (s : User) :
    (applyGraduationInfo d s).admission_year = some d.admissionYear ∧
    (applyGraduationInfo d s).graduation_year = some d.graduationYear ∧
    (applyGraduationInfo d s).degree_level = d.degreeLevel ∧
    (applyGraduationInfo d s).student_status = s.student_status := by
  unfold applyGraduationInfo
  cases d.studentType <;> cases d.faculty <;> cases d.direction <;>
    simp only [] <;> (try split) <;> simp

/-- Invariant of the batch-assignment loop: the rows grow by a block of new
rows matching the `assigned` counter, each new row is a legitimate fresh
assignment, the new block is duplicate-free, the error list collects exactly
the unknown ids, every processed id lands in exactly one of the three
buckets, and every id that is fresh at loop entry gets a row. -/
lemma assignLoop_spec (users : List User) (tid aid : String) (now : Date) :
    ∀ (ids : List String) (asg : List TeacherStudent) (a s : Nat) (e : List String),
      ∃ newRows : List TeacherStudent,
        (assignLoop users tid aid now ids asg a s e).1 = asg ++ newRows ∧
        (assignLoop users tid aid now ids asg a s e).2.1 = a + newRows.length ∧
        (assignLoop users tid aid now ids asg a s e).2.2.2
          = e ++ (ids.filter (fun sid =>
              (findUserWithRole users sid Role.student).isNone)).map
              (fun sid => "Student " ++ sid ++ " not found") ∧
        (assignLoop users tid aid now ids asg a s e).2.1
            + (assignLoop users tid aid now ids asg a s e).2.2.1
            + (assignLoop users tid aid now ids asg a s e).2.2.2.length
          = a + s + e.length + ids.length ∧
        (∀ r ∈ newRows, r.teacher_id = tid ∧ r.assigned_by = aid ∧ r.assigned_at = now ∧
          r.student_id ∈ ids ∧
          (findUserWithRole users r.student_id Role.student).isSome = true ∧
          hasAssignment asg tid r.student_id = false) ∧
        List.Pairwise (fun r1 r2 => r1.student_id ≠ r2.student_id) newRows ∧
        (∀ sid ∈ ids, (findUserWithRole users sid Role.student).isSome = true →
          hasAssignment asg tid sid = false →
          ∃ r ∈ newRows, r.student_id = sid) := by
  intro ids
  induction ids with
  | nil =>
    intro asg a s e
    exact ⟨[], by simp [assignLoop], by simp [assignLoop], by simp [assignLoop],
      by simp [assignLoop], by simp, List.Pairwise.nil, by simp⟩
  | cons sid rest ih =>
    intro asg a s e
    cases hfu : findUserWithRole users sid Role.student with
    | none =>
      obtain ⟨nr, h1, h2, h3, h4, h5, h6, h7⟩ :=
        ih asg a s (e ++ ["Student " ++ sid ++ " not found"])
      have hstep : assignLoop users tid aid now (sid :: rest) asg a s e
          = assignLoop users tid aid now rest asg a s
              (e ++ ["Student " ++ sid ++ " not found"]) := by
        simp [assignLoop, hfu]
      rw [hstep]
      refine ⟨nr, h1, h2, ?_, ?_, ?_, h6, ?_⟩
      · rw [List.filter_cons_of_pos (by simp [hfu]), List.map_cons, h3]
        simp
      · simp only [List.length_append, List.length_cons] at h4 ⊢
        simp only [List.length_nil] at h4
        omega
      · intro r hr
        obtain ⟨p1, p2, p3, p4, p5, p6⟩ := h5 r hr
        exact ⟨p1, p2, p3, List.mem_cons_of_mem _ p4, p5, p6⟩
      · intro sid' hmem hsome hnoasg
        rcases List.mem_cons.mp hmem with rfl | hmem'
        · rw [hfu] at hsome
          simp at hsome
        · exact h7 sid' hmem' hsome hnoasg
    | some u =>
      cases hha : hasAssignment asg tid sid with
      | true =>
        obtain ⟨nr, h1, h2, h3, h4, h5, h6, h7⟩ := ih asg a (s + 1) e
        have hstep : assignLoop users tid aid now (sid :: rest) asg a s e
            = assignLoop users tid aid now rest asg a (s + 1) e := by
          simp [assignLoop, hfu, hha]
        rw [hstep]
        refine ⟨nr, h1, h2, ?_, ?_, ?_, h6, ?_⟩
        · rw [List.filter_cons_of_neg (by simp [hfu])]
          exact h3
        · simp only [List.length_cons] at h4 ⊢
          omega
        · intro r hr
          obtain ⟨p1, p2, p3, p4, p5, p6⟩ := h5 r hr
          exact ⟨p1, p2, p3, List.mem_cons_of_mem _ p4, p5, p6⟩
        · intro sid' hmem hsome hnoasg
          rcases List.mem_cons.mp hmem with rfl | hmem'
          · rw [hnoasg] at hha
            cases hha
          · exact h7 sid' hmem' hsome hnoasg
      | false =>
        obtain ⟨nr, h1, h2, h3, h4, h5, h6, h7⟩ :=
          ih (asg ++ [⟨tid, sid, now, aid⟩]) (a + 1) s e
        have hstep : assignLoop users tid aid now (sid :: rest) asg a s e
            = assignLoop users tid aid now rest (asg ++ [⟨tid, sid, now, aid⟩])
                (a + 1) s e := by
          simp [assignLoop, hfu, hha]
        rw [hstep]
        have hsplit : ∀ x : String, hasAssignment (asg ++ [⟨tid, sid, now, aid⟩]) tid x
            = (hasAssignment asg tid x || decide (sid = x)) := by
          intro x
          unfold hasAssignment
          simp [List.any_append]
        refine ⟨⟨tid, sid, now, aid⟩ :: nr, ?_, ?_, ?_, ?_, ?_, ?_, ?_⟩
        · rw [h1]
          simp
        · rw [h2]
          simp only [List.length_cons]
          omega
        · rw [List.filter_cons_of_neg (by simp [hfu])]
          exact h3
        · simp only [List.length_cons] at h4 ⊢
          omega
        · intro r hr
          rcases List.mem_cons.mp hr with rfl | hr'
          · exact ⟨rfl, rfl, rfl, List.mem_cons_self _ _, by simp [hfu], hha⟩
          · obtain ⟨p1, p2, p3, p4, p5, p6⟩ := h5 r hr'
            rw [hsplit] at p6
            rcases Bool.or_eq_false_iff.mp p6 with ⟨q1, _⟩
            exact ⟨p1, p2, p3, List.mem_cons_of_mem _ p4, p5, q1⟩
        · refine List.Pairwise.cons ?_ h6
          intro r' hr'
          obtain ⟨_, _, _, _, _, p6⟩ := h5 r' hr'
          rw [hsplit] at p6
          rcases Bool.or_eq_false_iff.mp p6 with ⟨_, q2⟩
          simpa using q2
        · intro sid' hmem hsome hnoasg
          by_cases hs : sid' = sid
          · exact ⟨⟨tid, sid, now, aid⟩, List.mem_cons_self _ _, hs.symm⟩
          · have hss : ¬(sid = sid') := fun hq => hs hq.symm
            rcases List.mem_cons.mp hmem with rfl | hmem'
            · exact absurd rfl hs
            · obtain ⟨r, hrmem, hrid⟩ := h7 sid' hmem' hsome
                (by rw [hsplit]; simp [hnoasg, hss])
              exact ⟨r, List.mem_cons_of_mem _ hrmem, hrid⟩

/-- Evaluation of the batch-assignment handler once the teacher is found and
the id list is non-empty: the result is built from the loop's four
components. -/
lemma assign_students_eq (db : DB) (admin tid : String) (ids : List String)
    (now : Date) (t : User)
    (hteacher : findUserWithRole db.users tid Role.teacher = some t)
    (hne : ids ≠ []) :
    assign_students_to_teacher db admin tid ids now = Except.ok
      ({ db with
          assignments := (assignLoop db.users tid admin now ids db.assignments 0 0 []).1,
          logs :=
            if (assignLoop db.users tid admin now ids db.assignments 0 0 []).2.1 > 0 then
              db.logs ++ [⟨admin, "STUDENTS_ASSIGNED_TO_TEACHER", tid, "user",
                "Assigned "
                  ++ toString (assignLoop db.users tid admin now ids db.assignments 0 0 []).2.1
                  ++ " students to teacher " ++ t.email⟩]
            else db.logs },
        ⟨(assignLoop db.users tid admin now ids db.assignments 0 0 []).2.1,
         (assignLoop db.users tid admin now ids db.assignments 0 0 []).2.2.1,
         (assignLoop db.users tid admin now ids db.assignments 0 0 []).2.2.2⟩) := by
  unfold assign_students_to_teacher
  simp only [hteacher]
  rw [if_neg hne]

/-! ## Claim theorems -/

/-- C1: for a student with `student_status = current` and graduation year Y,
`is_eligible_for_graduation` is false strictly before June 1 of year Y and
true from June 1 of year Y onward; for a student whose status is not
`current` it is false regardless of the date. -/
theorem graduation_eligibility_june_window (s : GradData) (d : Date) :
    (s.student_status = StudentStatus.current →
      (dateLt d (juneFirst s.graduation_year) = true →
        is_eligible_for_graduation s d = false) ∧
      (dateLe (juneFirst s.graduation_year) d = true →
        is_eligible_for_graduation s d = true)) ∧
    (s.student_status ≠ StudentStatus.current →
      is_eligible_for_graduation s d = false) := by
  constructor
  · intro hcur
    constructor
    · intro hlt
      simp only [is_eligible_for_graduation, hcur]
      simp only [if_neg (by simp : ¬(StudentStatus.current = StudentStatus.graduate))]
      exact dateLe_eq_false_of_dateLt d (juneFirst s.graduation_year) hlt
    · intro hle
      simp [is_eligible_for_graduation, hcur, hle]
  · intro hne
    cases hs : s.student_status with
    | current => exact absurd hs hne
    | graduate => simp [is_eligible_for_graduation, hs]

/-- C1 witness: the window at concrete dates — 2025-05-31 is too early,
2025-06-01 opens the window, and a graduate is never eligible. -/
theorem graduation_eligibility_june_window_witness :
    is_eligible_for_graduation
      ⟨2021, 2025, DegreeLevel.bachelor, StudentType.regular, StudentStatus.current⟩
      ⟨2025, 5, 31⟩ = false ∧
    is_eligible_for_graduation
      ⟨2021, 2025, DegreeLevel.bachelor, StudentType.regular, StudentStatus.current⟩
      ⟨2025, 6, 1⟩ = true ∧
    is_eligible_for_graduation
      ⟨2019, 2023, DegreeLevel.bachelor, StudentType.regular, StudentStatus.graduate⟩
      ⟨2025, 7, 1⟩ = false :=
  ⟨((graduation_eligibility_june_window _ _).1 rfl).1 (by decide),
   ((graduation_eligibility_june_window _ _).1 rfl).2 (by decide),
   (graduation_eligibility_june_window _ _).2 (by decide)⟩

/-- C2: `validate_graduation_data` returns a non-empty error list exactly
when the duration is outside the degree-specific range (bachelor 4-5,
master 2-3, phd 3-5) or the student is a non-regular bachelor/master; and
its verdicts on the four concrete examples of the spec. -/
theorem validate_graduation_data_characterization :
    (∀ s : GradData,
      validate_graduation_data s ≠ [] ↔
        ((s.degree_level = DegreeLevel.bachelor ∧
            ¬(4 ≤ s.graduation_year - s.admission_year ∧
              s.graduation_year - s.admission_year ≤ 5)) ∨
         (s.degree_level = DegreeLevel.master ∧
            ¬(2 ≤ s.graduation_year - s.admission_year ∧
              s.graduation_year - s.admission_year ≤ 3)) ∨
         (s.degree_level = DegreeLevel.phd ∧
            ¬(3 ≤ s.graduation_year - s.admission_year ∧
              s.graduation_year - s.admission_year ≤ 5)) ∨
         ((s.degree_level = DegreeLevel.bachelor ∨ s.degree_level = DegreeLevel.master) ∧
            s.student_type ≠ StudentType.regular))) ∧
    validate_graduation_data
      ⟨2020, 2027, DegreeLevel.bachelor, StudentType.regular, StudentStatus.current⟩ ≠ [] ∧
    validate_graduation_data
      ⟨2021, 2025, DegreeLevel.bachelor, StudentType.regular, StudentStatus.current⟩ = [] ∧
    validate_graduation_data
      ⟨2021, 2025, DegreeLevel.bachelor, StudentType.free_applicant, StudentStatus.current⟩ ≠ [] ∧
    validate_graduation_data
      ⟨2021, 2025, DegreeLevel.phd, StudentType.free_applicant, StudentStatus.current⟩ = [] := by
  refine ⟨fun s => ?_, by decide, by decide, by decide, by decide⟩
  cases hd : s.degree_level <;> cases ht : s.student_type <;>
    simp [validate_graduation_data, hd, ht] <;> omega

/-- C10: for a `dsc` student no duration rule and no student-type rule
applies, so the error list is always empty. -/
theorem dsc_validate_empty (s : GradData) (h : s.degree_level = DegreeLevel.dsc) :
    validate_graduation_data s = [] := by
  simp [validate_graduation_data, h]

/-- C10 witness: an extreme dsc student (60-year span, external type) passes
validation. -/
theorem dsc_validate_empty_witness :
    validate_graduation_data
      ⟨1950, 2010, DegreeLevel.dsc, StudentType.external, StudentStatus.current⟩ = [] :=
  dsc_validate_empty
    ⟨1950, 2010, DegreeLevel.dsc, StudentType.external, StudentStatus.current⟩ rfl

/-- C9: when the request omits `studentType` and sets `degreeLevel` to
bachelor or master, the updated row has `student_type = regular`, so the
bachelor/master-must-be-regular message can never appear in the re-run
validation. -/
theorem update_forces_regular_type (s : User) (d : UpdateData)
    (hnone : d.studentType = none)
    (hdeg : d.degreeLevel = DegreeLevel.bachelor ∨ d.degreeLevel = DegreeLevel.master) :
    (applyGraduationInfo d s).student_type = StudentType.regular ∧
    ∀ errs, User.validate_graduation_data (applyGraduationInfo d s) = some errs →
      "Bachelor and Master students must be regular type" ∉ errs := by
  have htype : (applyGraduationInfo d s).student_type = StudentType.regular := by
    unfold applyGraduationInfo
    simp only [hnone]
    rw [if_pos hdeg]
    cases d.faculty <;> cases d.direction <;> rfl
  refine ⟨htype, ?_⟩
  intro errs hv
  obtain ⟨hay, hgy, hdl, hst⟩ := applyGraduationInfo_fields d s
  unfold User.validate_graduation_data at hv
  simp only [hay, hgy, Option.some.injEq] at hv
  rw [htype, hst] at hv
  rw [← hv]
  simp only [validate_graduation_data]
  split_ifs <;> first | decide | simp_all

/-- C3 counterexample: after a successful `confirm_graduation`, a second call
on the same student returns `NOT_ELIGIBLE` — not `ALREADY_GRADUATED` as the
claim states — because the eligibility check (routes.py line 435, false for
any graduate) runs before the graduated check (line 438). -/
theorem confirm_twice_counterexample :
    (confirm_graduation sampleDB "a1" "s1" ⟨2025, 7, 1⟩ ⟨2025, 7, 1⟩).isOk = true ∧
    confirm_graduation c3DB1 "a1" "s1" ⟨2025, 7, 2⟩ ⟨2025, 7, 2⟩
      = Except.error ErrCode.NOT_ELIGIBLE ∧
    ErrCode.NOT_ELIGIBLE ≠ ErrCode.ALREADY_GRADUATED :=
  ⟨rfl, rfl, by decide⟩

/-- C3 amended: for every student on whom `confirm_graduation` has already
succeeded, a second call returns the error code `NOT_ELIGIBLE` (the
eligibility check precedes the graduated check and a graduate is never
eligible) and leaves the student's state unchanged (the error return happens
before any session mutation or commit). -/
theorem confirm_second_call_not_eligible
    (db db1 : DB) (a1 a2 sid : String) (n1 u1 n2 u2 : Date)
    (h : confirm_graduation db a1 sid n1 u1 = Except.ok db1) :
    confirm_graduation db1 a2 sid n2 u2 = Except.error ErrCode.NOT_ELIGIBLE := by
  obtain ⟨s, gy, ay, hf, hgy, hay, hcur, hdate, hval, hdb1⟩ :=
    confirm_graduation_ok_elim db a1 sid n1 u1 db1 h
  have hf1 : findStudent db1 sid
      = some { s with student_status := StudentStatus.graduate, updated_at := u1 } := by
    subst hdb1
    show findUserWithRole (updateUser db.users sid (fun u =>
        { u with student_status := StudentStatus.graduate, updated_at := u1 }))
      sid Role.student = _
    rw [findUserWithRole_updateUser db.users sid Role.student
      (fun u => { u with student_status := StudentStatus.graduate, updated_at := u1 })
      (fun u => rfl) (fun u => rfl)]
    unfold findStudent at hf
    rw [hf]
    rfl
  simp [confirm_graduation, hf1, User.is_eligible_for_graduation, hgy]

/-- C3 witness (amended): the second call on the concrete confirmed state
returns `NOT_ELIGIBLE`. -/
theorem confirm_second_call_not_eligible_witness :
    confirm_graduation c3DB1 "a2" "s1" ⟨2025, 7, 2⟩ ⟨2025, 7, 2⟩
      = Except.error ErrCode.NOT_ELIGIBLE :=
  confirm_second_call_not_eligible sampleDB c3DB1 "a1" "a2" "s1"
    ⟨2025, 7, 1⟩ ⟨2025, 7, 1⟩ ⟨2025, 7, 2⟩ ⟨2025, 7, 2⟩ rfl

/-- C4: for a found student with role `student`, eligible, not graduated and
with clean validation data, `confirm_graduation` succeeds, marks the row
graduated with `updated_at` refreshed, and appends exactly one
`STUDENT_GRADUATED` activity-log row and exactly one success notification for
that student; the user and assignment tables gain no rows. -/
theorem confirm_graduation_effects
    (db : DB) (admin sid : String) (now utc : Date) (s : User)
    (hfind : findStudent db sid = some s)
    (helig : User.is_eligible_for_graduation s now = some true)
    (hng : s.student_status ≠ StudentStatus.graduate)
    (hval : User.validate_graduation_data s = some []) :
    ∃ db1,
      confirm_graduation db admin sid now utc = Except.ok db1 ∧
      findStudent db1 sid
        = some { s with student_status := StudentStatus.graduate, updated_at := utc } ∧
      (∃ log : ActivityLog, db1.logs = db.logs ++ [log] ∧
        log.action = "STUDENT_GRADUATED") ∧
      (∃ notif : Notification, db1.notifs = db.notifs ++ [notif] ∧
        notif.user_id = s.id ∧ notif.type = "success") ∧
      db1.users.length = db.users.length ∧
      db1.assignments = db.assignments := by
  obtain ⟨gy, hgy, helig'⟩ : ∃ gy, s.graduation_year = some gy ∧
      (decide (s.student_status = StudentStatus.current)
        && dateLe (juneFirst gy) now) = true := by
    unfold User.is_eligible_for_graduation at helig
    cases hgy : s.graduation_year with
    | none => rw [hgy] at helig; simp at helig
    | some gy =>
      rw [hgy] at helig
      simp only [Option.some.injEq] at helig
      exact ⟨gy, rfl, helig⟩
  obtain ⟨ay, hay, hval'⟩ : ∃ ay, s.admission_year = some ay ∧
      validate_graduation_data
        ⟨ay, gy, s.degree_level, s.student_type, s.student_status⟩ = [] := by
    unfold User.validate_graduation_data at hval
    cases hay : s.admission_year with
    | none => rw [hay] at hval; simp at hval
    | some ay =>
      rw [hay, hgy] at hval
      simp only [Option.some.injEq] at hval
      exact ⟨ay, rfl, hval⟩
  have hok : confirm_graduation db admin sid now utc = Except.ok { db with
      users := updateUser db.users sid (fun u =>
        { u with student_status := StudentStatus.graduate, updated_at := utc }),
      logs := db.logs ++ [⟨admin, "STUDENT_GRADUATED", s.id, "User",
        "Подтвержден выпуск студента " ++ s.first_name ++ " " ++ s.last_name⟩],
      notifs := db.notifs ++ [⟨s.id, "Поздравляем с выпуском!",
        "Ваш выпуск был подтвержден администратором. Поздравляем с завершением обучения!",
        "success"⟩] } := by
    simp [confirm_graduation, hfind, User.is_eligible_for_graduation,
      User.validate_graduation_data, hgy, hay, helig', hval', hng]
  refine ⟨_, hok, ?_, ⟨_, rfl, rfl⟩, ⟨_, rfl, rfl, rfl⟩, ?_, rfl⟩
  · show findUserWithRole (updateUser db.users sid (fun u =>
        { u with student_status := StudentStatus.graduate, updated_at := utc }))
      sid Role.student = _
    rw [findUserWithRole_updateUser db.users sid Role.student
      (fun u => { u with student_status := StudentStatus.graduate, updated_at := utc })
      (fun u => rfl) (fun u => rfl)]
    unfold findStudent at hfind
    rw [hfind]
    rfl
  · show (updateUser db.users sid _).length = db.users.length
    unfold updateUser
    exact List.length_map _ _

/-- C4 witness: the spec's end-to-end example — the 2021-2025 regular
bachelor confirmed on 2025-07-01. -/
theorem confirm_graduation_effects_witness :
    ∃ db1,
      confirm_graduation sampleDB "a1" "s1" ⟨2025, 7, 1⟩ ⟨2025, 7, 1⟩ = Except.ok db1 ∧
      findStudent db1 "s1"
        = some { sampleStudent with
            student_status := StudentStatus.graduate, updated_at := ⟨2025, 7, 1⟩ } ∧
      (∃ log : ActivityLog, db1.logs = sampleDB.logs ++ [log] ∧
        log.action = "STUDENT_GRADUATED") ∧
      (∃ notif : Notification, db1.notifs = sampleDB.notifs ++ [notif] ∧
        notif.user_id = sampleStudent.id ∧ notif.type = "success") ∧
      db1.users.length = sampleDB.users.length ∧
      db1.assignments = sampleDB.assignments :=
  confirm_graduation_effects sampleDB "a1" "s1" ⟨2025, 7, 1⟩ ⟨2025, 7, 1⟩
    sampleStudent rfl rfl (by decide) rfl

/-- C5: whenever `confirm_graduation` succeeds, `revert_graduation`
immediately afterwards succeeds, the student (who was `current` before the
pair) is `current` again, and the validation result is unchanged — still the
empty list the confirmation required. -/
theorem confirm_then_revert_restores_current
    (db db1 : DB) (a1 a2 sid : String) (now u1 u2 : Date)
    (h : confirm_graduation db a1 sid now u1 = Except.ok db1) :
    ∃ db2 s,
      findStudent db sid = some s ∧
      s.student_status = StudentStatus.current ∧
      revert_graduation db1 a2 sid u2 = Except.ok db2 ∧
      findStudent db2 sid
        = some { s with student_status := StudentStatus.current, updated_at := u2 } ∧
      User.validate_graduation_data
          { s with student_status := StudentStatus.current, updated_at := u2 }
        = User.validate_graduation_data s ∧
      User.validate_graduation_data s = some [] := by
  obtain ⟨s, gy, ay, hf, hgy, hay, hcur, hdate, hval, hdb1⟩ :=
    confirm_graduation_ok_elim db a1 sid now u1 db1 h
  have hf1 : findStudent db1 sid
      = some { s with student_status := StudentStatus.graduate, updated_at := u1 } := by
    subst hdb1
    show findUserWithRole (updateUser db.users sid (fun u =>
        { u with student_status := StudentStatus.graduate, updated_at := u1 }))
      sid Role.student = _
    rw [findUserWithRole_updateUser db.users sid Role.student
      (fun u => { u with student_status := StudentStatus.graduate, updated_at := u1 })
      (fun u => rfl) (fun u => rfl)]
    unfold findStudent at hf
    rw [hf]
    rfl
  have hok : revert_graduation db1 a2 sid u2 = Except.ok { db1 with
      users := updateUser db1.users sid (fun u =>
        { u with student_status := StudentStatus.current, updated_at := u2 }),
      logs := db1.logs ++ [⟨a2, "STUDENT_GRADUATION_REVERTED", s.id, "User",
        "Отменен выпуск студента " ++ s.first_name ++ " " ++ s.last_name⟩],
      notifs := db1.notifs ++ [⟨s.id, "Статус выпуска изменен",
        "Ваш статус выпуска был изменен администратором.", "info"⟩] } := by
    simp [revert_graduation, hf1]
  refine ⟨_, s, hf, hcur, hok, ?_, ?_, ?_⟩
  · show findUserWithRole (updateUser db1.users sid (fun u =>
        { u with student_status := StudentStatus.current, updated_at := u2 }))
      sid Role.student = _
    rw [findUserWithRole_updateUser db1.users sid Role.student
      (fun u => { u with student_status := StudentStatus.current, updated_at := u2 })
      (fun u => rfl) (fun u => rfl)]
    unfold findStudent at hf1
    rw [hf1]
    rfl
  · simp [User.validate_graduation_data, hay, hgy, hcur]
  · simp [User.validate_graduation_data, hay, hgy, hval]

/-- C5 witness: the concrete confirm-then-revert round trip on the sample
student. -/
theorem confirm_then_revert_restores_current_witness :
    ∃ db2 s,
      findStudent sampleDB "s1" = some s ∧
      s.student_status = StudentStatus.current ∧
      revert_graduation c5DB1 "a2" "s1" ⟨2025, 7, 3⟩ = Except.ok db2 ∧
      findStudent db2 "s1"
        = some { s with student_status := StudentStatus.current, updated_at := ⟨2025, 7, 3⟩ } ∧
      User.validate_graduation_data
          { s with student_status := StudentStatus.current, updated_at := ⟨2025, 7, 3⟩ }
        = User.validate_graduation_data s ∧
      User.validate_graduation_data s = some [] :=
  confirm_then_revert_restores_current sampleDB c5DB1 "a1" "a2" "s1"
    ⟨2025, 7, 1⟩ ⟨2025, 7, 1⟩ ⟨2025, 7, 3⟩ rfl

/-- C6: `update_graduation_info` fails with `STUDENT_GRADUATED` for a
graduate, and with `VALIDATION_ERROR` for a current student whose updated
field values fail validation; in both cases the handler returns before any
commit, so no academic field is persistently changed — the update is
all-or-nothing (the committed state is only replaced on `Except.ok`). -/
theorem update_graduation_info_guards
    (db : DB) (admin sid : String) (d : UpdateData) (utc : Date) (s : User)
    (hfind : findStudent db sid = some s) :
    (s.student_status = StudentStatus.graduate →
      update_graduation_info db admin sid d utc
        = Except.error ErrCode.STUDENT_GRADUATED) ∧
    (s.student_status = StudentStatus.current →
      ∀ errs, User.validate_graduation_data (applyGraduationInfo d s) = some errs →
        errs ≠ [] →
        update_graduation_info db admin sid d utc
          = Except.error ErrCode.VALIDATION_ERROR) := by
  constructor
  · intro hg
    simp [update_graduation_info, hfind, hg]
  · intro hc errs hv hne
    simp [update_graduation_info, hfind, hc, hv, hne]

/-- C6 witness: updating the graduated sample student fails
`STUDENT_GRADUATED`; giving the current sample student a 7-year bachelor span
fails `VALIDATION_ERROR`. -/
theorem update_graduation_info_guards_witness :
    update_graduation_info sampleDB "a1" "s2"
        ⟨2019, 2023, DegreeLevel.bachelor, none, none, none⟩ ⟨2025, 1, 1⟩
      = Except.error ErrCode.STUDENT_GRADUATED ∧
    update_graduation_info sampleDB "a1" "s1"
        ⟨2020, 2027, DegreeLevel.bachelor, none, none, none⟩ ⟨2025, 1, 1⟩
      = Except.error ErrCode.VALIDATION_ERROR :=
  ⟨(update_graduation_info_guards sampleDB "a1" "s2"
      ⟨2019, 2023, DegreeLevel.bachelor, none, none, none⟩ ⟨2025, 1, 1⟩
      sampleGraduate rfl).1 rfl,
   (update_graduation_info_guards sampleDB "a1" "s1"
      ⟨2020, 2027, DegreeLevel.bachelor, none, none, none⟩ ⟨2025, 1, 1⟩
      sampleStudent rfl).2 rfl
      ["Bachelor degree duration should be 4-5 years"] rfl (by decide)⟩

/-- C9 witness: a body setting `degreeLevel = master` with no `studentType`
turns an external student regular and the type-rule message is absent. -/
theorem update_forces_regular_type_witness :
    (applyGraduationInfo ⟨2023, 2025, DegreeLevel.master, none, none, none⟩
        sampleStudent).student_type = StudentType.regular ∧
    ∀ errs,
      User.validate_graduation_data
        (applyGraduationInfo ⟨2023, 2025, DegreeLevel.master, none, none, none⟩
          sampleStudent) = some errs →
      "Bachelor and Master students must be regular type" ∉ errs :=
  update_forces_regular_type sampleStudent
    ⟨2023, 2025, DegreeLevel.master, none, none, none⟩ rfl (Or.inr rfl)

/-- C7: the batch assignment creates the assignment rows as a block appended
to the table, one row per fresh id with `assigned_by` set to the acting
admin; ids whose (teacher, student) pair already exists create no duplicate
row; unknown ids each contribute one error message without aborting the
batch; every id is counted in exactly one of assigned/skipped/errors, and the
call returns those counts. -/
theorem assign_students_batch_spec
    (db : DB) (admin tid : String) (ids : List String) (now : Date) (t : User)
    (hteacher : findUserWithRole db.users tid Role.teacher = some t)
    (hne : ids ≠ []) :
    ∃ db1 res newRows,
      assign_students_to_teacher db admin tid ids now = Except.ok (db1, res) ∧
      db1.assignments = db.assignments ++ newRows ∧
      res.assigned = newRows.length ∧
      res.errors = (ids.filter (fun sid =>
          (findUserWithRole db.users sid Role.student).isNone)).map
          (fun sid => "Student " ++ sid ++ " not found") ∧
      res.assigned + res.skipped + res.errors.length = ids.length ∧
      (∀ r ∈ newRows, r.teacher_id = tid ∧ r.assigned_by = admin ∧
        (findUserWithRole db.users r.student_id Role.student).isSome = true ∧
        hasAssignment db.assignments tid r.student_id = false) ∧
      List.Pairwise (fun r1 r2 => r1.student_id ≠ r2.student_id) newRows ∧
      (∀ sid ∈ ids, (findUserWithRole db.users sid Role.student).isSome = true →
        hasAssignment db.assignments tid sid = false →
        ∃ r ∈ newRows, r.student_id = sid) ∧
      db1.users = db.users ∧ db1.notifs = db.notifs := by
  obtain ⟨nr, h1, h2, h3, h4, h5, h6, h7⟩ :=
    assignLoop_spec db.users tid admin now ids db.assignments 0 0 []
  refine ⟨_, _, nr, assign_students_eq db admin tid ids now t hteacher hne,
    h1, ?_, ?_, ?_, ?_, h6, h7, rfl, rfl⟩
  · simpa using h2
  · simpa using h3
  · simpa using h4
  · intro r hr
    obtain ⟨p1, p2, _, _, p5, p6⟩ := h5 r hr
    exact ⟨p1, p2, p5, p6⟩

/-- C7 witness: assigning `["s1", "s1", "zz"]` to the sample teacher — the
first id is assigned, its in-batch duplicate is skipped, the unknown id
errors. -/
theorem assign_students_batch_spec_witness :
    ∃ db1 res newRows,
      assign_students_to_teacher sampleDB "a1" "t1" ["s1", "s1", "zz"] ⟨2025, 7, 1⟩
        = Except.ok (db1, res) ∧
      db1.assignments = sampleDB.assignments ++ newRows ∧
      res.assigned = newRows.length ∧
      res.errors = ((["s1", "s1", "zz"] : List String).filter (fun sid =>
          (findUserWithRole sampleDB.users sid Role.student).isNone)).map
          (fun sid => "Student " ++ sid ++ " not found") ∧
      res.assigned + res.skipped + res.errors.length
        = (["s1", "s1", "zz"] : List String).length ∧
      (∀ r ∈ newRows, r.teacher_id = "t1" ∧ r.assigned_by = "a1" ∧
        (findUserWithRole sampleDB.users r.student_id Role.student).isSome = true ∧
        hasAssignment sampleDB.assignments "t1" r.student_id = false) ∧
      List.Pairwise (fun r1 r2 => r1.student_id ≠ r2.student_id) newRows ∧
      (∀ sid ∈ (["s1", "s1", "zz"] : List String),
        (findUserWithRole sampleDB.users sid Role.student).isSome = true →
        hasAssignment sampleDB.assignments "t1" sid = false →
        ∃ r ∈ newRows, r.student_id = sid) ∧
      db1.users = sampleDB.users ∧ db1.notifs = sampleDB.notifs :=
  assign_students_batch_spec sampleDB "a1" "t1" ["s1", "s1", "zz"] ⟨2025, 7, 1⟩
    sampleTeacher rfl (by decide)

/-- C8: the graduating-students listing returns exactly the users with role
`student`, status `current`, a non-null graduation year at most the current
academic year plus one (academic year = calendar year from June on, else the
previous year), further restricted by the faculty and degreeLevel query
parameters when supplied and non-empty. -/
theorem graduating_students_membership
    (db : DB) (facArg degArg : Option String) (now : Date) (u : User) :
    u ∈ get_graduating_students db facArg degArg now ↔
      (u ∈ db.users ∧ u.role = Role.student ∧
        u.student_status = StudentStatus.current ∧
        (∃ gy, u.graduation_year = some gy ∧
          gy ≤ (if now.month < 6 then now.year - 1 else now.year) + 1) ∧
        (∀ f, facArg = some f → f ≠ "" → u.faculty = f) ∧
        (∀ dl, degArg = some dl → dl ≠ "" → DegreeLevel.str u.degree_level = dl)) := by
  cases facArg with
  | none =>
    cases degArg with
    | none =>
      cases hgy : u.graduation_year <;>
        simp [get_graduating_students, currentAcademicYear, List.mem_filter, hgy] <;>
        tauto
    | some dl =>
      by_cases hdl : dl = "" <;>
        cases hgy : u.graduation_year <;>
          simp [get_graduating_students, currentAcademicYear, List.mem_filter, hgy, hdl] <;>
          tauto
  | some f =>
    cases degArg with
    | none =>
      by_cases hf : f = "" <;>
        cases hgy : u.graduation_year <;>
          simp [get_graduating_students, currentAcademicYear, List.mem_filter, hgy, hf] <;>
          tauto
    | some dl =>
      by_cases hf : f = "" <;> by_cases hdl : dl = "" <;>
        cases hgy : u.graduation_year <;>
          simp [get_graduating_students, currentAcademicYear, List.mem_filter,
            hgy, hf, hdl] <;>
          tauto

/-- C8 witness: the sample current student appears in the listing filtered by
their faculty and degree level on 2025-07-01 (academic year 2025, and
2025 ≤ 2025 + 1). -/
theorem graduating_students_membership_witness :
    sampleStudent ∈ get_graduating_students sampleDB
      (some "Факультет информатики") (some "bachelor") ⟨2025, 7, 1⟩ :=
  (graduating_students_membership sampleDB
      (some "Факультет информатики") (some "bachelor") ⟨2025, 7, 1⟩ sampleStudent).mpr
    ⟨by decide, rfl, rfl, ⟨2025, rfl, by decide⟩,
     fun f hf _ => by cases hf; rfl,
     fun dl hdl _ => by cases hdl; rfl⟩

end TurinGrad
